import Mathlib

/-!
Shallow embedding of the digidice swap/deposit transaction-lifecycle core:
the confirmation-polling state machine of `useSwapTransaction`
(src/unnamed/part_001), the orchestration of `useSwap` (src/unnamed/part_000),
the allowance effect of `useDepositTransaction`, and the cache / approval /
transfer methods of `TransactionService`.

Amount-typed values (`parseFloat` results, JS numbers) are modelled as ℚ;
JS falsiness of a missing value is modelled with `Option`.
-/

namespace Digidice

/-- Status of a ledger entry, from `TransactionStatus`. -/
inductive TxStatus
  | PENDING
  | CONFIRMED
  | FAILED
deriving DecidableEq, Repr

/-- A transaction record in the shared ledger (the fields the core reads). -/
structure LedgerTx where
  id : Nat
  hash : String
  status : TxStatus
deriving DecidableEq, Repr

/-- Modelled from the spec: the transaction-ledger store slice
(`addTransaction` / `_updateTransaction` of the Zustand blockchain slice) is
not among the provided sources; per the spec the ledger is an ordered
collection of records with mutable status, updated by id. -/
def updateTransaction (ledger : List LedgerTx) (id : Nat) (status : TxStatus) :
    List LedgerTx :=
  ledger.map (fun t => if t.id = id then { t with status := status } else t)

/-- A token as the swap/deposit hooks see it: `address`, `symbol`, parsed
`balance`, `decimals`, `tags`. -/
structure Token where
  address : String
  symbol : String
  balance : ℚ
  decimals : Nat
  tags : List String
deriving DecidableEq, Repr

/-! ## useSwapTransaction (src/unnamed/part_001) -/

/-- Outcome of one `publicClient.getTransactionReceipt` call: a receipt with
on-chain success, a receipt recording a revert, a falsy receipt without a
throw, or a throw (viem throws while the tx is not yet mined). -/
inductive PollOutcome
  | receiptSuccess
  | receiptRevert
  | noReceipt
  | throws
deriving DecidableEq, Repr

/-- State of one swap session in `useSwapTransaction`, together with the
instrumentation the claims are about: how many poll calls ran, how many
`_updateTransaction` calls were made, how often `onTransactionComplete`
fired, and the toast messages raised. -/
structure SwapSession where
  ledger : List LedgerTx
  txHash : String
  isPending : Bool
  timeLeft : Nat
  isLoading : Bool
  checkSuccess : Bool
  transactionSuccess : Bool
  successPop : Bool
  intervalActive : Bool
  retryCount : Nat
  pollCalls : Nat
  completeCalls : Nat
  updateCalls : Nat
  toasts : List String
deriving DecidableEq, Repr

/-- Retry cap of the polling loop (`MAX_RETRIES = 30`). -/
def MAX_RETRIES : Nat := 30

/-- Toast raised on confirmed swap. -/
def swapConfirmedMsg : String := "Swap Confirmed!"

/-- Toast raised on an on-chain revert. -/
def swapRevertedMsg : String :=
  "Swap transaction reverted on-chain. Please try again."

/-- Toast raised when the retry cap is hit without a receipt. -/
def confirmationTimeoutMsg : String :=
  "Transaction confirmation timeout. Please check your wallet or try again."

/-- Toast raised when the retry cap is hit inside the catch handler. -/
def unableToConfirmMsg : String :=
  "Unable to confirm transaction. Please check manually."

/-- One resolution of `pollTransactionReceipt(hash, retryCount)`.
Mirrors the source body: with a public client and a receipt, the interval is
cleared and the ledger entry found by hash is updated (CONFIRMED or FAILED),
a toast fires and `onTransactionComplete` runs; with no receipt (falsy
receipt, no client, or a throw) nothing happens below the cap, and at the cap
the interval is cleared, `isPending` drops, a timeout toast fires and
`onTransactionComplete` runs. No liveness flag is consulted anywhere. -/
def pollTransactionReceipt (publicClientPresent : Bool) (outcome : PollOutcome)
    (hash : String) (retryCount : Nat) (s : SwapSession) : SwapSession :=
  match publicClientPresent, outcome with
  | true, PollOutcome.receiptSuccess =>
    let s1 := { s with intervalActive := false, isPending := false,
                       transactionSuccess := true, checkSuccess := true,
                       successPop := true }
    let s2 :=
      match s1.ledger.find? (fun t => t.hash = hash) with
      | some tx =>
        { s1 with
            ledger := updateTransaction s1.ledger tx.id TxStatus.CONFIRMED,
            updateCalls := s1.updateCalls + 1 }
      | none => s1
    { s2 with toasts := s2.toasts ++ [swapConfirmedMsg],
              completeCalls := s2.completeCalls + 1 }
  | true, PollOutcome.receiptRevert =>
    let s1 := { s with intervalActive := false, isPending := false }
    let s2 :=
      match s1.ledger.find? (fun t => t.hash = hash) with
      | some tx =>
        { s1 with
            ledger := updateTransaction s1.ledger tx.id TxStatus.FAILED,
            updateCalls := s1.updateCalls + 1 }
      | none => s1
    { s2 with toasts := s2.toasts ++ [swapRevertedMsg],
              completeCalls := s2.completeCalls + 1 }
  | true, PollOutcome.throws =>
    if retryCount ≥ MAX_RETRIES then
      { s with intervalActive := false, isPending := false,
               toasts := s.toasts ++ [unableToConfirmMsg],
               completeCalls := s.completeCalls + 1 }
    else s
  | true, PollOutcome.noReceipt =>
    if retryCount ≥ MAX_RETRIES then
      { s with intervalActive := false, isPending := false,
               toasts := s.toasts ++ [confirmationTimeoutMsg],
               completeCalls := s.completeCalls + 1 }
    else s
  | false, _ =>
    if retryCount ≥ MAX_RETRIES then
      { s with intervalActive := false, isPending := false,
               toasts := s.toasts ++ [confirmationTimeoutMsg],
               completeCalls := s.completeCalls + 1 }
    else s

/-- One firing of the polling interval: while the interval is live, call
`pollTransactionReceipt(txHash, retryCountRef.current)` (the poll resolving
before the next tick) and then increment the retry counter, as the interval
callback in the start-polling effect does. -/
def pollTick (publicClientPresent : Bool) (outcomes : Nat → PollOutcome)
    (hash : String) (s : SwapSession) : SwapSession :=
  if s.intervalActive then
    let s1 := pollTransactionReceipt publicClientPresent (outcomes s.retryCount)
      hash s.retryCount { s with pollCalls := s.pollCalls + 1 }
    { s1 with retryCount := s1.retryCount + 1 }
  else s

/-- Run the interval for `fuel` ticks. -/
def runPolling (publicClientPresent : Bool) (outcomes : Nat → PollOutcome)
    (hash : String) : Nat → SwapSession → SwapSession
  | 0, s => s
  | fuel + 1, s =>
    runPolling publicClientPresent outcomes hash fuel
      (pollTick publicClientPresent outcomes hash s)

/-- Effect that starts polling when `isPending && txHash`: reset
`retryCountRef` to zero and install the interval. -/
def startPolling (s : SwapSession) : SwapSession :=
  { s with retryCount := 0, intervalActive := true }

/-- Teardown from `resetSwapState`: clear the UI state and the polling
interval. Nothing else is recorded — no liveness flag exists. -/
def resetSwapState (s : SwapSession) : SwapSession :=
  { s with checkSuccess := false, transactionSuccess := false,
           successPop := false, txHash := "", isPending := false,
           timeLeft := 0, isLoading := false, retryCount := 0,
           intervalActive := false }

/-- `validateSwap` of `useSwapTransaction`: both tokens present, a parseable
positive amount, amount not exceeding the source balance, distinct token
addresses. `none` for the amount models the empty (falsy) amount string. -/
def validateSwap (fromToken toToken : Option Token)
    (exchangeAmount : Option ℚ) : Bool :=
  match fromToken, toToken with
  | some f, some t =>
    match exchangeAmount with
    | none => false
    | some a =>
      if a ≤ 0 then false
      else if a > f.balance then false
      else if f.address = t.address then false
      else true
  | _, _ => false

/-! ## useSwap orchestrator (src/unnamed/part_000) -/

/-- Result shape of `executeSwap` at the orchestrator level. -/
structure SwapCallResult where
  success : Bool
  error : Option String
deriving DecidableEq, Repr

/-- Observable calls the orchestrator makes, in order. -/
inductive SwapEvent
  | approveCall
  | submitCall
deriving DecidableEq, Repr

/-- `executeSwap` of `useSwap`: validate, approve when the source token is
neither allowed nor native, then submit via `executeSwapTransaction`.
Returns the result together with the ordered list of calls made. -/
def executeSwap (validateOk : Bool) (isTokenAllowed : Bool)
    (isNativeCurrency : Bool) (approveResult : Bool)
    (submitResult : SwapCallResult) : SwapCallResult × List SwapEvent :=
  if ¬ validateOk then
    ({ success := false, error := some "Validation failed" }, [])
  else if ¬ isTokenAllowed ∧ ¬ isNativeCurrency then
    if ¬ approveResult then
      ({ success := false, error := some "Token approval failed" },
       [SwapEvent.approveCall])
    else
      (submitResult, [SwapEvent.approveCall, SwapEvent.submitCall])
  else
    (submitResult, [SwapEvent.submitCall])

/-! ## TransactionService: approval, transfer, allowance -/

/-- Maximum unsigned 256-bit value, the literal used by `approveToken`. -/
def MAX_UINT256_LITERAL : Nat :=
  115792089237316195423570985008687907853269984665640564039457584007913129639935

/-- `ethers.parseUnits` on an integral value string. -/
def ethersParseUnits (value : Nat) (decimals : Nat) : Nat :=
  value * 10 ^ decimals

/-- Destructuring default `unlimited = true` of `approveToken`. -/
def approveTokenUnlimitedDefault : Bool := true

/-- Resolution of a wallet call (`writeContract` / `sendTransaction`):
either a resolved value — `none` models a falsy (absent or empty) hash —
or a rejection. -/
inductive WalletCallResult
  | value (hash : Option String)
  | throws
deriving DecidableEq, Repr

/-- Result shape `{success, txHash, error}` of the service methods. -/
structure ServiceTxResult where
  success : Bool
  txHash : Option String
  errorPresent : Bool
deriving DecidableEq, Repr

/-- A run of `approveToken`: the result, the `maxAmount` that would be placed
in the `approve` call's args, and whether `writeContract` was reached. -/
structure ApproveRun where
  result : ServiceTxResult
  requestedAmount : Nat
  writeCalled : Bool
deriving DecidableEq, Repr

/-- `TransactionService.approveToken`: compute `maxAmount`, optionally call
`writeContract` through the optional wallet client, and return
`hash || "tempHash"` as a success even when no hash came back. -/
def approveToken (unlimited : Bool) (walletClientPresent : Bool)
    (callResult : WalletCallResult) : ApproveRun :=
  let maxAmount :=
    if unlimited then MAX_UINT256_LITERAL else ethersParseUnits 1000000 18
  if walletClientPresent then
    match callResult with
    | WalletCallResult.value h =>
      { result := { success := true, txHash := some (h.getD "tempHash"),
                    errorPresent := false },
        requestedAmount := maxAmount, writeCalled := true }
    | WalletCallResult.throws =>
      { result := { success := false, txHash := none, errorPresent := true },
        requestedAmount := maxAmount, writeCalled := true }
  else
    { result := { success := true, txHash := some "tempHash",
                  errorPresent := false },
      requestedAmount := maxAmount, writeCalled := false }

/-- `TransactionService.executeTokenTransfer`: ERC-20 `transfer` via
`writeContract` when not native, otherwise `sendTransaction`; in both
branches a missing client or a falsy hash still yields
`{success: true, txHash: "tempHash"}`. -/
def executeTokenTransfer (isNative : Bool) (walletClientPresent : Bool)
    (callResult : WalletCallResult) : ServiceTxResult :=
  if ¬ isNative then
    if walletClientPresent then
      match callResult with
      | WalletCallResult.value h =>
        { success := true, txHash := some (h.getD "tempHash"),
          errorPresent := false }
      | WalletCallResult.throws =>
        { success := false, txHash := none, errorPresent := true }
    else
      { success := true, txHash := some "tempHash", errorPresent := false }
  else
    if walletClientPresent then
      match callResult with
      | WalletCallResult.value h =>
        { success := true, txHash := some (h.getD "tempHash"),
          errorPresent := false }
      | WalletCallResult.throws =>
        { success := false, txHash := none, errorPresent := true }
    else
      { success := true, txHash := some "tempHash", errorPresent := false }

/-- Backend response to `/apiSwap/getAllowance`: a returned allowance value
(`Number(allowance)`), or an error (`response.error` or a throw). -/
inductive AllowanceResponse
  | ok (allowance : ℚ)
  | apiError
deriving DecidableEq, Repr

/-- Result shape of `checkAllowance`. -/
structure CheckAllowanceResult where
  hasAllowance : Bool
  allowanceAmount : ℚ
deriving DecidableEq, Repr

/-- `TransactionService.checkAllowance`: `hasAllowance` iff the returned
allowance is strictly positive; any error collapses to
`{hasAllowance: false, allowanceAmount: "0"}`. -/
def checkAllowance (resp : AllowanceResponse) : CheckAllowanceResult :=
  match resp with
  | AllowanceResponse.ok allowance =>
    { hasAllowance := decide (allowance > 0), allowanceAmount := allowance }
  | AllowanceResponse.apiError =>
    { hasAllowance := false, allowanceAmount := 0 }

/-! ## useDepositTransaction allowance effect -/

/-- Hardcoded direct-transfer symbol set of `useDepositTransaction`. -/
def directTransferSymbols : List String :=
  ["USDT", "USDC", "55Swap", "USD₮0", "USDT0"]

/-- Outcome of the allowance-check effect: the `isApproved` flag it sets and
whether a backend allowance query was issued. -/
structure AllowanceCheckOutcome where
  isApproved : Bool
  backendQueried : Bool
deriving DecidableEq, Repr

/-- Allowance-check effect of `useDepositTransaction`: a missing token or
wallet, a "native" tag, or a direct-transfer symbol resolves approved with
no backend call; otherwise `checkAllowance` is queried. -/
def allowanceEffect (selectedToken : Option Token)
    (userWalletAddress : Option String) (resp : AllowanceResponse) :
    AllowanceCheckOutcome :=
  match selectedToken, userWalletAddress with
  | none, _ => { isApproved := true, backendQueried := false }
  | some _, none => { isApproved := true, backendQueried := false }
  | some tok, some _ =>
    if tok.tags.contains "native" then
      { isApproved := true, backendQueried := false }
    else if directTransferSymbols.contains tok.symbol then
      { isApproved := true, backendQueried := false }
    else
      { isApproved := (checkAllowance resp).hasAllowance,
        backendQueried := true }

/-! ## TransactionService: conversion cache -/

/-- A backend conversion quote. -/
structure ConversionData where
  fromAmount : ℚ
  toAmount : ℚ
deriving DecidableEq, Repr

/-- A cached quote as stored in localStorage: the quote plus a capture
timestamp (`none` models a missing field; `0` is falsy in the source). -/
structure CachedConversionData where
  fromAmount : ℚ
  toAmount : ℚ
  timestamp : Option ℤ
deriving DecidableEq, Repr

/-- The localStorage slice used by the conversion cache. -/
abbrev CacheStore := List (String × CachedConversionData)

/-- `localStorage.getItem`. -/
def lsGetItem (store : CacheStore) (key : String) :
    Option CachedConversionData :=
  (store.find? (fun p => p.1 = key)).map Prod.snd

/-- `localStorage.removeItem`. -/
def lsRemoveItem (store : CacheStore) (key : String) : CacheStore :=
  store.filter (fun p => p.1 ≠ key)

/-- `localStorage.setItem` (overwrites any existing entry). -/
def lsSetItem (store : CacheStore) (key : String)
    (val : CachedConversionData) : CacheStore :=
  (key, val) :: lsRemoveItem store key

/-- `generateCacheKey`. -/
def generateCacheKey (network fromToken toToken : String) : String :=
  "token_conversion_" ++ network ++ "_" ++ fromToken ++ "_" ++ toToken

/-- `isCacheExpired` with its default 2-minute expiration window: a falsy
timestamp is expired, otherwise expired iff strictly older than 120000 ms. -/
def isCacheExpired (cachedData : CachedConversionData) (now : ℤ) : Bool :=
  match cachedData.timestamp with
  | none => true
  | some ts => if ts = 0 then true else decide (now - ts > 2 * 60 * 1000)

/-- `getCachedConversion`: return a live entry unchanged; evict an expired
entry on read and return nothing. -/
def getCachedConversion (store : CacheStore) (cacheKey : String) (now : ℤ) :
    Option CachedConversionData × CacheStore :=
  match lsGetItem store cacheKey with
  | some cached =>
    if ¬ isCacheExpired cached now then (some cached, store)
    else (none, lsRemoveItem store cacheKey)
  | none => (none, store)

/-- Outcome of `getTokenConversion`: success flag, returned `toAmount`,
`fromCache` flag, whether the backend was queried, and the resulting store. -/
structure GetTokenConversionOutcome where
  success : Bool
  toAmount : Option ℚ
  fromCache : Bool
  backendQueried : Bool
  store : CacheStore
deriving DecidableEq, Repr

/-- `getTokenConversion` on the success path of the backend: a falsy amount
fails fast; a cache hit scales the request by the cached rate; a miss
fetches `fresh` from the backend, caches it stamped `now`, and scales by the
identical formula. -/
def getTokenConversion (store : CacheStore)
    (network fromToken toToken : String) (amount : ℚ) (now : ℤ)
    (fresh : ConversionData) : GetTokenConversionOutcome :=
  if amount = 0 then
    { success := false, toAmount := none, fromCache := false,
      backendQueried := false, store := store }
  else
    let cacheKey := generateCacheKey network fromToken toToken
    match getCachedConversion store cacheKey now with
    | (some cachedConversion, store1) =>
      let rate := cachedConversion.toAmount / cachedConversion.fromAmount
      { success := true, toAmount := some (amount * rate), fromCache := true,
        backendQueried := false, store := store1 }
    | (none, store1) =>
      let store2 := lsSetItem store1 cacheKey
        { fromAmount := fresh.fromAmount, toAmount := fresh.toAmount,
          timestamp := some now }
      let rate := fresh.toAmount / fresh.fromAmount
      { success := true, toAmount := some (amount * rate), fromCache := false,
        backendQueried := true, store := store2 }

/-! ## Concrete inputs and derived states used in the statements -/

/-- State reached by the capped polling run: 31 poll calls, interval cleared,
pending dropped, one completion callback, one timeout-path toast appended. -/
def cappedRunState (s0 : SwapSession) (msg : String) : SwapSession :=
  { s0 with retryCount := 31, intervalActive := false, isPending := false,
            pollCalls := s0.pollCalls + 31,
            toasts := s0.toasts ++ [msg],
            completeCalls := s0.completeCalls + 1 }

/-- A concrete in-flight session: one PENDING ledger entry for the submitted
hash, polling live, three polls already made. -/
def inFlightSession : SwapSession :=
  { ledger := [{ id := 1, hash := "0xabc", status := TxStatus.PENDING }],
    txHash := "0xabc", isPending := true, timeLeft := 80, isLoading := false,
    checkSuccess := true, transactionSuccess := false, successPop := false,
    intervalActive := true, retryCount := 3, pollCalls := 3,
    completeCalls := 0, updateCalls := 0, toasts := [] }

/-- A concrete just-submitted session: PENDING ledger entry, nothing polled
yet. -/
def submittedSession : SwapSession :=
  { ledger := [{ id := 1, hash := "0xabc", status := TxStatus.PENDING }],
    txHash := "0xabc", isPending := true, timeLeft := 90, isLoading := false,
    checkSuccess := true, transactionSuccess := false, successPop := false,
    intervalActive := false, retryCount := 0, pollCalls := 0,
    completeCalls := 0, updateCalls := 0, toasts := [] }

/-- A concrete non-native source token with balance 50. -/
def tokenA : Token :=
  { address := "0xaaa", symbol := "TKA", balance := 50, decimals := 18,
    tags := [] }

/-- A concrete destination token. -/
def tokenB : Token :=
  { address := "0xbbb", symbol := "TKB", balance := 10, decimals := 18,
    tags := [] }

/-- A concrete native-tagged token. -/
def tokenNative : Token :=
  { address := "0x000", symbol := "ETH", balance := 1, decimals := 18,
    tags := ["native"] }

/-- A concrete cached quote `(fromAmount = 2, toAmount = 6)` captured at
millisecond 1000. -/
def cachedQuoteSample : CachedConversionData :=
  { fromAmount := 2, toAmount := 6, timestamp := some 1000 }

/-- A concrete cache store holding `cachedQuoteSample` for the pair
`("1", "0xaaa", "0xbbb")`. -/
def storeSample : CacheStore :=
  [(generateCacheKey "1" "0xaaa" "0xbbb", cachedQuoteSample)]

/-- A concrete fresh backend quote `(fromAmount = 4, toAmount = 20)`. -/
def freshQuoteSample : ConversionData :=
  { fromAmount := 4, toAmount := 20 }

/-! ## Theorems -/

/-- C1 (code-bug evidence): after `resetSwapState` has torn the session down
(interval cleared, pending dropped), an in-flight `pollTransactionReceipt`
that resolves later with a success receipt still performs a
`_updateTransaction` ledger write, flipping the entry for the submitted hash
to CONFIRMED — no liveness guard prevents the late write. -/
theorem late_poll_writes_after_reset :
    (resetSwapState inFlightSession).intervalActive = false ∧
    (pollTransactionReceipt true PollOutcome.receiptSuccess "0xabc" 3
        (resetSwapState inFlightSession)).updateCalls =
      (resetSwapState inFlightSession).updateCalls + 1 ∧
    (pollTransactionReceipt true PollOutcome.receiptSuccess "0xabc" 3
        (resetSwapState inFlightSession)).ledger =
      [{ id := 1, hash := "0xabc", status := TxStatus.CONFIRMED }] := by
  decide

/-- C5: `validateSwap` accepts an amount equal to the source balance (given a
positive balance and distinct addresses), rejects an amount exceeding the
balance, rejects identical token addresses regardless of amount, rejects a
non-positive amount, and rejects a missing token or missing amount. -/
theorem validateSwap_boundary (f t : Token) (a : ℚ) :
    (0 < f.balance → f.address ≠ t.address →
      validateSwap (some f) (some t) (some f.balance) = true) ∧
    (f.balance < a → validateSwap (some f) (some t) (some a) = false) ∧
    (f.address = t.address → validateSwap (some f) (some t) (some a) = false) ∧
    (a ≤ 0 → validateSwap (some f) (some t) (some a) = false) ∧
    validateSwap none (some t) (some a) = false ∧
    validateSwap (some f) none (some a) = false ∧
    validateSwap (some f) (some t) none = false := by
  refine ⟨?_, ?_, ?_, ?_, rfl, rfl, rfl⟩
  · intro hb hne
    have h1 : ¬ f.balance ≤ 0 := not_le.mpr hb
    have h2 : ¬ f.balance > f.balance := lt_irrefl _
    simp [validateSwap, h1, h2, hne]
  · intro hlt
    simp only [validateSwap]
    split_ifs with h1 h2 h3 <;> first | rfl | exact absurd hlt h2
  · intro heq
    simp only [validateSwap]
    split_ifs with h1 h2 h3 <;> first | rfl | exact absurd heq h3
  · intro hle
    simp [validateSwap, hle]

/-- Witness for C5 at concrete tokens: amount 50 (= balance) passes, amount
60 (> balance) fails, identical addresses fail, amount 0 fails. -/
theorem validateSwap_boundary_witness :
    validateSwap (some tokenA) (some tokenB) (some tokenA.balance) = true ∧
    validateSwap (some tokenA) (some tokenB) (some 60) = false ∧
    validateSwap (some tokenA) (some tokenA) (some 10) = false ∧
    validateSwap (some tokenA) (some tokenB) (some 0) = false :=
  ⟨(validateSwap_boundary tokenA tokenB 60).1 (by decide) (by decide),
   (validateSwap_boundary tokenA tokenB 60).2.1 (by decide),
   (validateSwap_boundary tokenA tokenA 10).2.2.1 rfl,
   (validateSwap_boundary tokenA tokenB 0).2.2.2.1 (by decide)⟩

/-- C6: the `useSwap` orchestrator invokes approval before submission when
the source token is neither allowance-approved nor native; a failed approval
yields `{success: false, error: "Token approval failed"}` with no submission;
a failed validation yields `{success: false, error: "Validation failed"}`
with neither approval nor submission. -/
theorem executeSwap_approval_gating (submitResult : SwapCallResult) :
    (executeSwap true false false true submitResult =
      (submitResult, [SwapEvent.approveCall, SwapEvent.submitCall])) ∧
    (executeSwap true false false false submitResult =
      ({ success := false, error := some "Token approval failed" },
       [SwapEvent.approveCall])) ∧
    (∀ allowed native approveResult,
      executeSwap false allowed native approveResult submitResult =
        ({ success := false, error := some "Validation failed" }, [])) := by
  refine ⟨rfl, rfl, fun allowed native approveResult => rfl⟩

/-- Witness for C6: with allowance absent on a non-native token and a failing
approval, the result is the approval-failure error and only the approval call
was made. -/
theorem executeSwap_approval_gating_witness :
    executeSwap true false false false { success := true, error := none } =
      ({ success := false, error := some "Token approval failed" },
       [SwapEvent.approveCall]) :=
  (executeSwap_approval_gating { success := true, error := none }).2.1

/-- Reduction of the allowance-check effect when both token and wallet are
present. -/
theorem allowanceEffect_some (tok : Token) (wallet : String)
    (resp : AllowanceResponse) :
    allowanceEffect (some tok) (some wallet) resp =
      if tok.tags.contains "native" = true then
        { isApproved := true, backendQueried := false }
      else if directTransferSymbols.contains tok.symbol = true then
        { isApproved := true, backendQueried := false }
      else
        { isApproved := (checkAllowance resp).hasAllowance,
          backendQueried := true } := rfl

/-- C8: a native-tagged token or a direct-transfer symbol resolves approved
with no backend query; otherwise the backend is queried and approval holds
iff the returned allowance is strictly positive. -/
theorem allowance_bypass_and_query (tok : Token) (wallet : String) (v : ℚ)
    (resp : AllowanceResponse) :
    (tok.tags.contains "native" = true →
      allowanceEffect (some tok) (some wallet) resp =
        { isApproved := true, backendQueried := false }) ∧
    (directTransferSymbols.contains tok.symbol = true →
      allowanceEffect (some tok) (some wallet) resp =
        { isApproved := true, backendQueried := false }) ∧
    (tok.tags.contains "native" = false →
      directTransferSymbols.contains tok.symbol = false →
      (allowanceEffect (some tok) (some wallet)
          (AllowanceResponse.ok v)).backendQueried = true ∧
      ((allowanceEffect (some tok) (some wallet)
          (AllowanceResponse.ok v)).isApproved = true ↔ 0 < v)) := by
  refine ⟨?_, ?_, ?_⟩
  · intro hnat
    rw [allowanceEffect_some, if_pos hnat]
  · intro hdir
    by_cases hnat : tok.tags.contains "native" = true
    · rw [allowanceEffect_some, if_pos hnat]
    · rw [allowanceEffect_some, if_neg hnat, if_pos hdir]
  · intro hnat hdir
    rw [allowanceEffect_some,
      if_neg (by simp only [hnat]; exact Bool.false_ne_true),
      if_neg (by simp only [hdir]; exact Bool.false_ne_true)]
    refine ⟨rfl, ?_⟩
    show decide (v > 0) = true ↔ 0 < v
    exact decide_eq_true_iff

/-- Witness for C8 at concrete inputs: the native token bypasses the backend;
a plain token with returned allowance 7 is queried and approved. -/
theorem allowance_bypass_and_query_witness :
    allowanceEffect (some tokenNative) (some "0xwallet")
        (AllowanceResponse.ok 7) =
      { isApproved := true, backendQueried := false } ∧
    (allowanceEffect (some tokenA) (some "0xwallet")
        (AllowanceResponse.ok 7)).backendQueried = true ∧
    (allowanceEffect (some tokenA) (some "0xwallet")
        (AllowanceResponse.ok 7)).isApproved = true :=
  ⟨(allowance_bypass_and_query tokenNative "0xwallet" 7
      (AllowanceResponse.ok 7)).1 (by decide),
   ((allowance_bypass_and_query tokenA "0xwallet" 7
      (AllowanceResponse.ok 7)).2.2 (by decide) (by decide)).1,
   ((allowance_bypass_and_query tokenA "0xwallet" 7
      (AllowanceResponse.ok 7)).2.2 (by decide) (by decide)).2.mpr
        (by norm_num)⟩

/-- C4: for a truthy requested amount, `getTokenConversion` returns
`amount * (toAmount / fromAmount)` of the quote it used — the cached quote on
a hit, the fresh backend quote on a miss — computing by the identical scaling
formula on both paths. -/
theorem conversion_scaling_consistent (store : CacheStore)
    (network fromToken toToken : String) (amount : ℚ) (now : ℤ)
    (fresh : ConversionData) (c : CachedConversionData)
    (hamt : amount ≠ 0) :
    ((getCachedConversion store
        (generateCacheKey network fromToken toToken) now).1 = some c →
      (getTokenConversion store network fromToken toToken amount now
          fresh).toAmount = some (amount * (c.toAmount / c.fromAmount)) ∧
      (getTokenConversion store network fromToken toToken amount now
          fresh).fromCache = true) ∧
    ((getCachedConversion store
        (generateCacheKey network fromToken toToken) now).1 = none →
      (getTokenConversion store network fromToken toToken amount now
          fresh).toAmount =
        some (amount * (fresh.toAmount / fresh.fromAmount)) ∧
      (getTokenConversion store network fromToken toToken amount now
          fresh).fromCache = false) := by
  constructor
  · intro hhit
    simp only [getTokenConversion]
    rw [if_neg hamt]
    rcases hgc : getCachedConversion store
      (generateCacheKey network fromToken toToken) now with ⟨o, st⟩
    rw [hgc] at hhit
    cases o with
    | none => exact absurd hhit (by simp)
    | some c2 =>
      have hc2 : c2 = c := by simpa using hhit
      subst hc2
      exact ⟨rfl, rfl⟩
  · intro hmiss
    simp only [getTokenConversion]
    rw [if_neg hamt]
    rcases hgc : getCachedConversion store
      (generateCacheKey network fromToken toToken) now with ⟨o, st⟩
    rw [hgc] at hmiss
    cases o with
    | none => exact ⟨rfl, rfl⟩
    | some c2 => exact absurd hmiss (by simp)

/-- Witness for C4: a hit on the cached quote `(2, 6)` scales 5 to 15, and a
miss on the empty store scales 5 by the fresh quote `(4, 20)` to 25. -/
theorem conversion_scaling_consistent_witness :
    (getTokenConversion storeSample "1" "0xaaa" "0xbbb" 5 1500
        freshQuoteSample).toAmount =
      some (5 * (cachedQuoteSample.toAmount / cachedQuoteSample.fromAmount)) ∧
    (getTokenConversion storeSample "1" "0xaaa" "0xbbb" 5 1500
        freshQuoteSample).fromCache = true ∧
    (getTokenConversion [] "1" "0xaaa" "0xbbb" 5 1500
        freshQuoteSample).toAmount =
      some (5 * (freshQuoteSample.toAmount / freshQuoteSample.fromAmount)) :=
  ⟨((conversion_scaling_consistent storeSample "1" "0xaaa" "0xbbb" 5 1500
      freshQuoteSample cachedQuoteSample (by norm_num)).1 rfl).1,
   ((conversion_scaling_consistent storeSample "1" "0xaaa" "0xbbb" 5 1500
      freshQuoteSample cachedQuoteSample (by norm_num)).1 rfl).2,
   ((conversion_scaling_consistent [] "1" "0xaaa" "0xbbb" 5 1500
      freshQuoteSample cachedQuoteSample (by norm_num)).2 rfl).1⟩

/-- C7: an expired cache entry (strictly older than 120000 ms, or with a
falsy timestamp) is never returned and is evicted on read, after which
`getTokenConversion` queries the backend; an entry at most 120000 ms old is
returned unchanged. -/
theorem cache_expiry_correct (store : CacheStore) (key : String) (now : ℤ)
    (c : CachedConversionData) :
    (lsGetItem store key = some c → isCacheExpired c now = true →
      getCachedConversion store key now = (none, lsRemoveItem store key)) ∧
    (lsGetItem store key = some c → isCacheExpired c now = false →
      getCachedConversion store key now = (some c, store)) ∧
    (∀ ts, c.timestamp = some ts → ts ≠ 0 →
      (isCacheExpired c now = true ↔ now - ts > 120000)) ∧
    (c.timestamp = none → isCacheExpired c now = true) ∧
    (∀ network fromToken toToken amount fresh, amount ≠ (0 : ℚ) →
      lsGetItem store (generateCacheKey network fromToken toToken) = some c →
      isCacheExpired c now = true →
      (getTokenConversion store network fromToken toToken amount now
          fresh).backendQueried = true ∧
      (getTokenConversion store network fromToken toToken amount now
          fresh).fromCache = false) := by
  refine ⟨?_, ?_, ?_, ?_, ?_⟩
  · intro hget hexp
    unfold getCachedConversion
    rw [hget]
    simp [hexp]
  · intro hget hlive
    unfold getCachedConversion
    rw [hget]
    simp [hlive]
  · intro ts hts hts0
    unfold isCacheExpired
    rw [hts]
    show (if ts = 0 then true
        else decide (now - ts > 2 * 60 * 1000)) = true ↔ now - ts > 120000
    rw [if_neg hts0, decide_eq_true_iff]
    norm_num
  · intro hnone
    unfold isCacheExpired
    rw [hnone]
  · intro network fromToken toToken amount fresh hamt hget hexp
    have hevict : getCachedConversion store
        (generateCacheKey network fromToken toToken) now =
        (none, lsRemoveItem store (generateCacheKey network fromToken toToken)) := by
      unfold getCachedConversion
      rw [hget]
      simp [hexp]
    simp only [getTokenConversion]
    rw [if_neg hamt, hevict]
    exact ⟨rfl, rfl⟩

/-- Witness for C7: with `now = 150000`, the quote stamped at 1000 is
149000 ms old, hence expired: it is evicted on read and the backend is
queried; with `now = 1500` the same entry is 500 ms old and is returned. -/
theorem cache_expiry_correct_witness :
    getCachedConversion storeSample
        (generateCacheKey "1" "0xaaa" "0xbbb") 150000 =
      (none, lsRemoveItem storeSample (generateCacheKey "1" "0xaaa" "0xbbb")) ∧
    getCachedConversion storeSample
        (generateCacheKey "1" "0xaaa" "0xbbb") 1500 =
      (some cachedQuoteSample, storeSample) ∧
    (getTokenConversion storeSample "1" "0xaaa" "0xbbb" 5 150000
        freshQuoteSample).backendQueried = true :=
  ⟨(cache_expiry_correct storeSample (generateCacheKey "1" "0xaaa" "0xbbb")
      150000 cachedQuoteSample).1 rfl (by decide),
   (cache_expiry_correct storeSample (generateCacheKey "1" "0xaaa" "0xbbb")
      1500 cachedQuoteSample).2.1 rfl (by decide),
   ((cache_expiry_correct storeSample (generateCacheKey "1" "0xaaa" "0xbbb")
      150000 cachedQuoteSample).2.2.2.2 "1" "0xaaa" "0xbbb" 5 freshQuoteSample
      (by norm_num) rfl (by decide)).1⟩

/-- Unfolding one run step from the right end. -/
theorem runPolling_succ_right (pc : Bool) (o : Nat → PollOutcome)
    (hash : String) (n : Nat) (s : SwapSession) :
    runPolling pc o hash (n + 1) s =
      pollTick pc o hash (runPolling pc o hash n s) := by
  induction n generalizing s with
  | zero => rfl
  | succ n ih =>
    show runPolling pc o hash (n + 1) (pollTick pc o hash s) = _
    rw [ih]
    rfl

/-- Splitting a run into two consecutive runs. -/
theorem runPolling_add (pc : Bool) (o : Nat → PollOutcome) (hash : String)
    (a b : Nat) (s : SwapSession) :
    runPolling pc o hash (a + b) s =
      runPolling pc o hash a (runPolling pc o hash b s) := by
  induction b generalizing s with
  | zero => rfl
  | succ b ih => exact ih (pollTick pc o hash s)

/-- Ticks do nothing once the interval has been cleared. -/
theorem runPolling_inactive (pc : Bool) (o : Nat → PollOutcome) (hash : String)
    (n : Nat) (s : SwapSession) (hs : s.intervalActive = false) :
    runPolling pc o hash n s = s := by
  induction n with
  | zero => rfl
  | succ n ih =>
    rw [runPolling_succ_right, ih]
    unfold pollTick
    rw [hs]
    rfl

/-- A live tick below the retry cap with no receipt available just advances
the call and retry counters. -/
theorem pollTick_below_cap (o : Nat → PollOutcome) (hash : String)
    (s : SwapSession) (hact : s.intervalActive = true)
    (hlt : s.retryCount < 30)
    (ho : o s.retryCount = PollOutcome.noReceipt ∨
          o s.retryCount = PollOutcome.throws) :
    pollTick true o hash s =
      { s with pollCalls := s.pollCalls + 1,
               retryCount := s.retryCount + 1 } := by
  have hcap : ¬ s.retryCount ≥ MAX_RETRIES := by unfold MAX_RETRIES; omega
  unfold pollTick
  rw [if_pos hact]
  rcases ho with ho | ho <;> rw [ho] <;>
    simp only [pollTransactionReceipt] <;> rw [if_neg hcap]

/-- The live tick at the retry cap with no receipt clears the interval, drops
`isPending`, appends one timeout-path toast and fires the completion callback
once. -/
theorem pollTick_at_cap (o : Nat → PollOutcome) (hash : String)
    (s : SwapSession) (hact : s.intervalActive = true)
    (hrc : s.retryCount = 30)
    (ho : o s.retryCount = PollOutcome.noReceipt ∨
          o s.retryCount = PollOutcome.throws) :
    pollTick true o hash s =
      { s with pollCalls := s.pollCalls + 1, retryCount := s.retryCount + 1,
               intervalActive := false, isPending := false,
               toasts := s.toasts ++ [confirmationTimeoutMsg],
               completeCalls := s.completeCalls + 1 } ∨
    pollTick true o hash s =
      { s with pollCalls := s.pollCalls + 1, retryCount := s.retryCount + 1,
               intervalActive := false, isPending := false,
               toasts := s.toasts ++ [unableToConfirmMsg],
               completeCalls := s.completeCalls + 1 } := by
  have hcap : s.retryCount ≥ MAX_RETRIES := by unfold MAX_RETRIES; omega
  rcases ho with ho | ho
  · left
    unfold pollTick
    rw [if_pos hact, ho]
    simp only [pollTransactionReceipt]
    rw [if_pos hcap]
  · right
    unfold pollTick
    rw [if_pos hact, ho]
    simp only [pollTransactionReceipt]
    rw [if_pos hcap]

/-- Characterization of the first 30 live no-receipt ticks: only the
counters advance. -/
theorem runPolling_firstThirty (s0 : SwapSession) (o : Nat → PollOutcome)
    (hash : String)
    (h : ∀ k, k ≤ 30 → o k = PollOutcome.noReceipt ∨
          o k = PollOutcome.throws) :
    ∀ k, k ≤ 30 →
      runPolling true o hash k (startPolling s0) =
        { s0 with retryCount := k, intervalActive := true,
                  pollCalls := s0.pollCalls + k } := by
  intro k
  induction k with
  | zero =>
    intro _
    show startPolling s0 = _
    unfold startPolling
    simp
  | succ k ih =>
    intro hk
    rw [runPolling_succ_right, ih (by omega)]
    rw [pollTick_below_cap o hash _ rfl (by show k < 30; omega)
      (by show o k = PollOutcome.noReceipt ∨ o k = PollOutcome.throws
          exact h k (by omega))]
    rfl

/-- The capped run ends, for any fuel of at least 31 ticks, in
`cappedRunState` with one of the two timeout-path toasts. -/
theorem runPolling_cap (s0 : SwapSession) (o : Nat → PollOutcome)
    (hash : String)
    (h : ∀ k, k ≤ 30 → o k = PollOutcome.noReceipt ∨
          o k = PollOutcome.throws)
    (fuel : Nat) (hf : 31 ≤ fuel) :
    runPolling true o hash fuel (startPolling s0) =
        cappedRunState s0 confirmationTimeoutMsg ∨
    runPolling true o hash fuel (startPolling s0) =
        cappedRunState s0 unableToConfirmMsg := by
  obtain ⟨m, rfl⟩ : ∃ m, fuel = m + 31 := ⟨fuel - 31, by omega⟩
  rw [runPolling_add]
  have h31 : runPolling true o hash 31 (startPolling s0) =
        cappedRunState s0 confirmationTimeoutMsg ∨
      runPolling true o hash 31 (startPolling s0) =
        cappedRunState s0 unableToConfirmMsg := by
    rw [show (31 : Nat) = 30 + 1 by norm_num, runPolling_succ_right,
      runPolling_firstThirty s0 o hash h 30 le_rfl]
    exact pollTick_at_cap o hash _ rfl rfl (h 30 le_rfl)
  rcases h31 with h31 | h31
  · left
    rw [h31]
    exact runPolling_inactive true o hash m _ rfl
  · right
    rw [h31]
    exact runPolling_inactive true o hash m _ rfl

/-- C2: when every receipt poll through the capped attempt finds no receipt
(a falsy receipt or a not-yet-mined throw), the tracker times out on the
31st call: `isPending` drops, a timeout notification fires, the interval is
cleared, and exactly 31 poll calls are ever made — no 32nd call, however
long the interval could keep running. -/
theorem poll_retry_cap_timeout (s0 : SwapSession)
    (outcomes : Nat → PollOutcome) (hash : String)
    (h : ∀ k, k ≤ 30 → outcomes k = PollOutcome.noReceipt ∨
          outcomes k = PollOutcome.throws)
    (fuel : Nat) (hf : 31 ≤ fuel) :
    (runPolling true outcomes hash fuel (startPolling s0)).pollCalls =
      s0.pollCalls + 31 ∧
    (runPolling true outcomes hash fuel (startPolling s0)).isPending =
      false ∧
    (runPolling true outcomes hash fuel (startPolling s0)).intervalActive =
      false ∧
    ((runPolling true outcomes hash fuel (startPolling s0)).toasts =
        s0.toasts ++ [confirmationTimeoutMsg] ∨
     (runPolling true outcomes hash fuel (startPolling s0)).toasts =
        s0.toasts ++ [unableToConfirmMsg]) := by
  rcases runPolling_cap s0 outcomes hash h fuel hf with hc | hc
  · rw [hc]
    exact ⟨rfl, rfl, rfl, Or.inl rfl⟩
  · rw [hc]
    exact ⟨rfl, rfl, rfl, Or.inr rfl⟩

/-- Witness for C2 on a just-submitted session with every poll finding no
receipt and 40 ticks of fuel: 31 calls, pending dropped, interval cleared,
timeout toast fired. -/
theorem poll_retry_cap_timeout_witness :
    (runPolling true (fun _ => PollOutcome.noReceipt) "0xabc" 40
        (startPolling submittedSession)).pollCalls =
      submittedSession.pollCalls + 31 ∧
    (runPolling true (fun _ => PollOutcome.noReceipt) "0xabc" 40
        (startPolling submittedSession)).isPending = false ∧
    (runPolling true (fun _ => PollOutcome.noReceipt) "0xabc" 40
        (startPolling submittedSession)).intervalActive = false ∧
    ((runPolling true (fun _ => PollOutcome.noReceipt) "0xabc" 40
        (startPolling submittedSession)).toasts =
        submittedSession.toasts ++ [confirmationTimeoutMsg] ∨
     (runPolling true (fun _ => PollOutcome.noReceipt) "0xabc" 40
        (startPolling submittedSession)).toasts =
        submittedSession.toasts ++ [unableToConfirmMsg]) :=
  poll_retry_cap_timeout submittedSession (fun _ => PollOutcome.noReceipt)
    "0xabc" (fun _ _ => Or.inl rfl) 40 (by norm_num)

/-- C3: when confirmation polling times out at the retry cap, no
`_updateTransaction` call was made — the ledger is unchanged and the PENDING
entry for the submitted hash is still present as PENDING — and the
`onTransactionComplete` completion callback fired exactly once. -/
theorem poll_timeout_ledger_frame (s0 : SwapSession)
    (outcomes : Nat → PollOutcome) (hash : String) (i : Nat)
    (h : ∀ k, k ≤ 30 → outcomes k = PollOutcome.noReceipt ∨
          outcomes k = PollOutcome.throws)
    (fuel : Nat) (hf : 31 ≤ fuel)
    (htx : LedgerTx.mk i hash TxStatus.PENDING ∈ s0.ledger) :
    (runPolling true outcomes hash fuel (startPolling s0)).ledger =
      s0.ledger ∧
    (runPolling true outcomes hash fuel (startPolling s0)).updateCalls =
      s0.updateCalls ∧
    LedgerTx.mk i hash TxStatus.PENDING ∈
      (runPolling true outcomes hash fuel (startPolling s0)).ledger ∧
    (runPolling true outcomes hash fuel (startPolling s0)).completeCalls =
      s0.completeCalls + 1 := by
  rcases runPolling_cap s0 outcomes hash h fuel hf with hc | hc
  · rw [hc]
    exact ⟨rfl, rfl, htx, rfl⟩
  · rw [hc]
    exact ⟨rfl, rfl, htx, rfl⟩

/-- Witness for C3: on the just-submitted session, the timed-out run keeps
the single PENDING ledger entry, makes no update call, and fires the
completion callback once. -/
theorem poll_timeout_ledger_frame_witness :
    (runPolling true (fun _ => PollOutcome.noReceipt) "0xabc" 40
        (startPolling submittedSession)).ledger = submittedSession.ledger ∧
    (runPolling true (fun _ => PollOutcome.noReceipt) "0xabc" 40
        (startPolling submittedSession)).updateCalls =
      submittedSession.updateCalls ∧
    LedgerTx.mk 1 "0xabc" TxStatus.PENDING ∈
      (runPolling true (fun _ => PollOutcome.noReceipt) "0xabc" 40
        (startPolling submittedSession)).ledger ∧
    (runPolling true (fun _ => PollOutcome.noReceipt) "0xabc" 40
        (startPolling submittedSession)).completeCalls =
      submittedSession.completeCalls + 1 :=
  poll_timeout_ledger_frame submittedSession (fun _ => PollOutcome.noReceipt)
    "0xabc" 1 (fun _ _ => Or.inl rfl) 40 (by norm_num) (by decide)

/-- C9: with its destructuring default `unlimited = true`, `approveToken`
places the maximum representable unsigned 256-bit value, `2 ^ 256 - 1`, in
the approval call's amount argument, whatever the wallet state. -/
theorem approve_unlimited_max_uint256 (walletClientPresent : Bool)
    (callResult : WalletCallResult) :
    (approveToken approveTokenUnlimitedDefault walletClientPresent
        callResult).requestedAmount = 2 ^ 256 - 1 := by
  cases walletClientPresent <;> cases callResult <;>
    simp [approveToken, approveTokenUnlimitedDefault] <;> decide

/-- Witness for C9 at a concrete wallet call. -/
theorem approve_unlimited_max_uint256_witness :
    (approveToken approveTokenUnlimitedDefault true
        (WalletCallResult.value (some "0xhash"))).requestedAmount =
      2 ^ 256 - 1 :=
  approve_unlimited_max_uint256 true (WalletCallResult.value (some "0xhash"))

/-- C10: with the wallet client unavailable, or with `writeContract` /
`sendTransaction` resolving without a hash, `approveToken` and
`executeTokenTransfer` (both ERC-20 and native branches) still resolve
`success: true` with the placeholder hash `"tempHash"` and no error. -/
theorem temp_hash_masks_missing_hash :
    (approveToken true false (WalletCallResult.value none)).result =
      { success := true, txHash := some "tempHash", errorPresent := false } ∧
    (approveToken true true (WalletCallResult.value none)).result =
      { success := true, txHash := some "tempHash", errorPresent := false } ∧
    executeTokenTransfer false false (WalletCallResult.value none) =
      { success := true, txHash := some "tempHash", errorPresent := false } ∧
    executeTokenTransfer false true (WalletCallResult.value none) =
      { success := true, txHash := some "tempHash", errorPresent := false } ∧
    executeTokenTransfer true false (WalletCallResult.value none) =
      { success := true, txHash := some "tempHash", errorPresent := false } ∧
    executeTokenTransfer true true (WalletCallResult.value none) =
      { success := true, txHash := some "tempHash", errorPresent := false } := by
  decide

end Digidice
